import Mathlib

/-!
Verification development for the AIOps repository (natural-language ChatOps
agent + autonomous remediation loop over an MCP-style cloud server).

The Python sources are shallowly embedded as executable Lean definitions:
  * `src/agent/aiOps.py`    — `ChatOpsClient` (routing, argument finalization,
    safety gate, context memory, chat pipeline);
  * `src/agent/monitor.py`  — `MonitorAgent` (decision-text extraction,
    bounded action execution);
  * `src/MCPserver/MCPserver.py` — name→ID resolution, resize, stop, and the
    generic `execute_aws_action` capability.

Python string operations (`in`, `startswith`, `lower`, `strip`, `split`,
`sorted`) are modelled over `List Char` / `String`; the external cloud is a
`World` (list of instances) and each capability reports the provider calls it
makes, so "no side effect" claims are statements about those call lists.
-/

namespace AIOps

/-! ## Python-style string primitives -/

/-- `needle` is a prefix of `hay` (Python `str.startswith`, char-list level). -/
def isPrefL : List Char → List Char → Bool
  | [], _ => true
  | _ :: _, [] => false
  | a :: as, b :: bs => a == b && isPrefL as bs

/-- `needle` occurs contiguously in `hay` (Python `in`, char-list level). -/
def containsL (needle : List Char) : List Char → Bool
  | [] => isPrefL needle []
  | c :: t => isPrefL needle (c :: t) || containsL needle t

/-- Python `needle in hay` on strings. -/
def pyIn (needle hay : String) : Bool := containsL needle.data hay.data

/-- Python `s.startswith(p)`. -/
def pyStartsWith (s p : String) : Bool := isPrefL p.data s.data

/-- Python `s.lower()` (ASCII, which is all the agent handles). -/
def pyLower (s : String) : String := String.mk (s.data.map Char.toLower)

/-- Python `s.upper()` (ASCII). -/
def pyUpper (s : String) : String := String.mk (s.data.map Char.toUpper)

/-- Python `s.strip()` on a char list. -/
def stripL (l : List Char) : List Char :=
  ((l.dropWhile Char.isWhitespace).reverse.dropWhile Char.isWhitespace).reverse

/-- Python `s.strip()`. -/
def pyStrip (s : String) : String := String.mk (stripL s.data)

/-- Helper for `pySplitWs`: accumulates the current word (reversed). -/
def splitWsAux : List Char → List Char → List String
  | [], acc => if acc.isEmpty then [] else [String.mk acc.reverse]
  | c :: rest, acc =>
    if c.isWhitespace then
      if acc.isEmpty then splitWsAux rest []
      else String.mk acc.reverse :: splitWsAux rest []
    else splitWsAux rest (c :: acc)

/-- Python `s.split()` (split on whitespace runs, no empty words). -/
def pySplitWs (s : String) : List String := splitWsAux s.data []

/-- Python string `<=`: code-point lexicographic comparison on the char
lists, a proper initial segment comparing smaller. -/
def lexLe : List Char → List Char → Bool
  | [], _ => true
  | _ :: _, [] => false
  | a :: as, b :: bs => if a = b then lexLe as bs else decide (a < b)

/-- Python `a <= b` on strings. -/
def pyStrLe (a b : String) : Bool := lexLe a.data b.data

/-- The order `sorted` sorts by, as a relation. -/
def pyLeRel (a b : String) : Prop := pyStrLe a b = true

instance : DecidableRel pyLeRel := fun a b => instDecidableEqBool (pyStrLe a b) true

/-- Python `sorted` on strings (sorting is by `pyStrLe`; any sort
implementation gives the same list for this total antisymmetric order). -/
def pySorted (l : List String) : List String := List.insertionSort pyLeRel l

/-- Python truthiness of an optional string (`None` and `""` are falsy). -/
def truthy : Option String → Bool
  | none => false
  | some s => !(s == "")

/-! ## Regex embeddings used by `ChatOpsClient`

`INSTANCE_ID_PATTERN = re.compile(r"(i-[a-z0-9]+)")` and
`INSTANCE_TYPE_PATTERN = re.compile(r"\b[tcmr][1-7][a-z]*\.[a-z]+\b")`,
both used through `re.search` (leftmost match, greedy quantifiers). -/

/-- Character class `[a-z0-9]`. -/
def isIdTailChar (c : Char) : Bool := c.isLower || c.isDigit

/-- Try to match `i-[a-z0-9]+` at the head of the list. -/
def matchIdAt : List Char → Option (List Char)
  | 'i' :: '-' :: rest =>
    let run := rest.takeWhile isIdTailChar
    if run.isEmpty then none else some ('i' :: '-' :: run)
  | _ => none

/-- `re.search` for `(i-[a-z0-9]+)`: leftmost match wins. -/
def searchIdL : List Char → Option (List Char)
  | [] => none
  | c :: rest =>
    match matchIdAt (c :: rest) with
    | some m => some m
    | none => searchIdL rest

/-- `ChatOpsClient.INSTANCE_ID_PATTERN.search(text)`. -/
def searchInstanceId (s : String) : Option String :=
  (searchIdL s.data).map String.mk

/-- Regex word character `[a-zA-Z0-9_]` (for `\b`). -/
def isWordChar (c : Char) : Bool := c.isAlphanum || c == '_'

/-- Try to match `[tcmr][1-7][a-z]*\.[a-z]+\b` at the head of the list.
Greedy `[a-z]*`/`[a-z]+` cannot backtrack usefully here, so the maximal
lowercase runs are the only candidates. -/
def matchTypeAt : List Char → Option (List Char)
  | f :: g :: rest =>
    if (f == 't' || f == 'c' || f == 'm' || f == 'r') && ('1' ≤ g && g ≤ '7') then
      let mid := rest.takeWhile Char.isLower
      match rest.drop mid.length with
      | '.' :: rest2 =>
        let tail := rest2.takeWhile Char.isLower
        if tail.isEmpty then none
        else
          match rest2.drop tail.length with
          | [] => some (f :: g :: (mid ++ '.' :: tail))
          | d :: _ => if isWordChar d then none else some (f :: g :: (mid ++ '.' :: tail))
      | _ => none
    else none
  | _ => none

/-- `re.search` for the instance-type pattern; `prev` tracks the previous
character for the leading `\b`. -/
def searchTypeL (prev : Option Char) : List Char → Option (List Char)
  | [] => none
  | c :: rest =>
    let okBoundary := match prev with
      | none => true
      | some p => !isWordChar p
    if okBoundary then
      match matchTypeAt (c :: rest) with
      | some m => some m
      | none => searchTypeL (some c) rest
    else searchTypeL (some c) rest

/-- `ChatOpsClient.INSTANCE_TYPE_PATTERN.search(text)`. -/
def searchInstanceType (s : String) : Option String :=
  (searchTypeL none s.data).map String.mk

/-! ## `ChatOpsClient` data (src/agent/aiOps.py) -/

/-- `ChatOpsClient.CRITICAL_TOOLS` (aiOps.py line 11). -/
def CRITICAL_TOOLS : List String := ["terminate_resource", "resize_instance"]

/-- `ChatOpsClient.STOP_WORDS` (aiOps.py lines 20–49). -/
def STOP_WORDS : List String :=
  ["the", "a", "an", "start", "stop", "delete", "create", "launch", "make",
   "resize", "terminate", "remove", "instance", "server", "new", "named",
   "with", "type", "please", "can", "you", "will", "would", "should",
   "restart", "reboot", "check", "inventory"]

/-- The tool-argument dictionary, projected onto the keys the agent code
reads (`instance_id`, `instance_type`, `name`, `status`). `none` stands for
a missing key or a stored Python `None`. -/
structure Args where
  instance_id : Option String := none
  instance_type : Option String := none
  name : Option String := none
  status : Option String := none
deriving Repr, DecidableEq

/-- `ChatOpsClient.context_memory`. -/
structure ContextMemory where
  vpc_id : Option String := none
  subnet_id : Option String := none
  sg_id : Option String := none
  instance_id : Option String := none
deriving Repr, DecidableEq

/-- `ChatOpsClient._clean_text_for_extraction`: drop `,`/`'`/`"`, lowercase,
split on whitespace, drop stop words, re-join. -/
def cleanTextForExtraction (text : String) : String :=
  let clean := String.mk ((pyLower text).data.filter
    (fun c => !(c == ',' || c == '\'' || c == '\"')))
  let words := (pySplitWs clean).filter (fun w => !STOP_WORDS.contains w)
  pyStrip (String.intercalate " " words)

/-- The rule-based analysis patterns (aiOps.py lines 101–114), in source
order. -/
def analysisPatterns : List (String × List String) :=
  [("analyze_cost_trend",
     ["cost difference", "cost comparison", "cost trend", "analyze cost"]),
   ("analyze_resource_usage",
     ["resource usage", "resource optimization", "which instance uses"]),
   ("analyze_high_cpu", ["high cpu", "cpu spike", "cpu usage", "heavy cpu"])]

/-- `ChatOpsClient._rule_based_routing` (aiOps.py lines 91–151). -/
def ruleBasedRouting (user_input : String) : Option String × Args :=
  let text := pyLower user_input
  match (analysisPatterns.find? (fun p => p.2.any (fun phrase => pyIn phrase text))) with
  | some p => (some p.1, {})
  | none =>
    if (["cost", "price", "billing", "bill"].any (fun phrase => pyIn phrase text)) &&
        !(["compare", "difference", "vs", "between"].any (fun k => pyIn k text)) then
      (some "get_cost", {})
    else if ["list instance", "show instance", "list all"].any (fun phrase => pyIn phrase text) then
      (some "list_instances", { status := some "all" })
    else if pyIn "topology" text && pyIn "generate" text then
      (some "generate_topology", {})
    else
      match searchInstanceId text with
      | some iid =>
        if pyIn "start" text then (some "start_instances", { instance_id := some iid })
        else if pyIn "stop" text then (some "stop_instances", { instance_id := some iid })
        else if pyIn "reboot" text then (some "reboot_instances", { instance_id := some iid })
        else if pyIn "terminate" text then (some "terminate_resource", { instance_id := some iid })
        else (none, {})
      | none => (none, {})

/-- Tools that take the cleaned free text as `instance_id` in Step 3 of
`_finalize_args`. -/
def stateChangeTools : List String :=
  ["stop_instances", "start_instances", "terminate_resource",
   "resize_instance", "create_snapshot", "get_metric"]

/-- `context_require_tools` of `_finalize_args` Step 4. -/
def contextRequireTools : List String :=
  ["stop_instances", "start_instances", "reboot_instances", "terminate_resource"]

/-- `_finalize_args` Step 1: regex-extract an instance ID from the text. -/
def finStep1 (text : String) (args : Args) : Args :=
  if truthy args.instance_id then args
  else
    match searchInstanceId text with
    | some m => { args with instance_id := some m }
    | none => args

/-- `_finalize_args` Step 2: regex-extract an instance type. -/
def finStep2 (text : String) (args : Args) : Args :=
  if truthy args.instance_type then args
  else
    match searchInstanceType text with
    | some m => { args with instance_type := some m }
    | none => args

/-- `_finalize_args` Step 3: use the stop-word-cleaned text as a name
(`create_instance`) or as the target identifier (state-change tools). -/
def finStep3 (text tool : String) (args : Args) : Args :=
  if !truthy args.instance_id && !truthy args.name then
    let cleaned := cleanTextForExtraction text
    if !(cleaned == "") then
      if tool == "create_instance" then { args with name := some cleaned }
      else if stateChangeTools.contains tool then { args with instance_id := some cleaned }
      else args
    else args
  else args

/-- `_finalize_args` Step 4: context-memory injection for the
`context_require_tools`. -/
def finStep4 (tool : String) (ctxInstanceId : Option String) (args : Args) : Args :=
  if !truthy args.instance_id && truthy ctxInstanceId && contextRequireTools.contains tool then
    { args with instance_id := ctxInstanceId }
  else args

/-- The test-identifier shapes filtered by `_finalize_args` Step 5. -/
def isTestId (s : String) : Bool := pyStartsWith s "i-12345" || pyIn "abcde" s

/-- `_finalize_args` Step 5: silently reset test-case identifiers to `None`. -/
def finStep5 (args : Args) : Args :=
  if truthy args.instance_id && isTestId (args.instance_id.getD "") then
    { args with instance_id := none }
  else args

/-- `_finalize_args` Step 6: `create_instance` defaults. -/
def finStep6 (tool : String) (args : Args) : Args :=
  if tool == "create_instance" then
    let args := if truthy args.name then args else { args with name := some "new-instance" }
    if truthy args.instance_type then args else { args with instance_type := some "t2.micro" }
  else args

/-- `ChatOpsClient._finalize_args` (aiOps.py lines 158–248): the six steps
applied in source order to the lower-cased user input. -/
def finalizeArgs (user_input tool : String) (args : Args) (ctxInstanceId : Option String) : Args :=
  let text := pyLower user_input
  finStep6 tool (finStep5 (finStep4 tool ctxInstanceId (finStep3 text tool (finStep2 text (finStep1 text args)))))

/-- Outcome of `ChatOpsClient._check_safety`: whether the blocking
confirmation prompt was shown, and whether execution may proceed. -/
structure SafetyOutcome where
  requested : Bool
  allowed : Bool
deriving Repr, DecidableEq

/-- `ChatOpsClient._check_safety` (aiOps.py lines 250–262); `confirmInput` is
the operator's raw console reply. -/
def checkSafety (tool : String) (confirmInput : String) : SafetyOutcome :=
  if CRITICAL_TOOLS.contains tool then
    { requested := true, allowed := pyLower (pyStrip confirmInput) == "yes" }
  else { requested := false, allowed := true }

/-- The value `MCPServer.call_tool` hands back: either a plain string or a
result dictionary, projected onto the keys the agent reads
(`status`, `action`, `resource_id`, `type`, `instance_id`, `message`). -/
inductive ToolResult where
  | text (s : String)
  | dict (status : String) (action : Option String) (resource_id : Option String)
      (rtype : Option String) (iid : Option String) (message : Option String)
deriving Repr, DecidableEq

/-- `ChatOpsClient._update_internal_state` (aiOps.py lines 264–274): only a
`success` dict carrying a truthy `resource_id` plus a `type` of
`instance`/`vpc`/`subnet` updates the context memory. -/
def updateInternalState (ctx : ContextMemory) (result : ToolResult) : ContextMemory :=
  match result with
  | .text _ => ctx
  | .dict status _ resource_id rtype _ _ =>
    if status == "success" then
      match resource_id with
      | some rid =>
        if !(rid == "") then
          if rtype == some "instance" then { ctx with instance_id := some rid }
          else if rtype == some "vpc" then { ctx with vpc_id := some rid }
          else if rtype == some "subnet" then { ctx with subnet_id := some rid }
          else ctx
        else ctx
      | none => ctx
    else ctx

/-- Everything observable about one `ChatOpsClient.chat` turn. -/
structure ChatResult where
  response : String
  ctx : ContextMemory
  llmInvoked : Bool
  routedTool : Option String
  confirmationRequested : Bool
  dispatched : Option (String × Args)
deriving Repr, DecidableEq

/-- The three analysis tools handled before the LLM fallback. -/
def analysisTools : List String :=
  ["analyze_cost_trend", "analyze_resource_usage", "analyze_high_cpu"]

/-- The tool `chat` settles on (aiOps.py lines 340–354): the rule-based
tool when routing succeeded, otherwise the model-extracted one. -/
def routeTool (user_input : String) (llmTool : Option String) : Option String :=
  if truthy (ruleBasedRouting user_input).1 then (ruleBasedRouting user_input).1 else llmTool

/-- The argument dict accompanying `routeTool`: the rule-based args, replaced
by the model's args exactly when the model supplied the tool. -/
def routeArgs (user_input : String) (llmTool : Option String) (llmArgs : Args) : Args :=
  if truthy (ruleBasedRouting user_input).1 then (ruleBasedRouting user_input).2
  else if truthy llmTool then llmArgs else (ruleBasedRouting user_input).2

/-- `ChatOpsClient.chat` (aiOps.py lines 338–379).

Parameters standing for the external collaborators:
  * `server` — `MCPServer.call_tool` (which never raises: it catches
    internally and returns an error dict);
  * `analysisLlm` — whether the analysis agent's report path reaches its own
    model call (it does on its normal path; it depends on external cost and
    inventory data, see analysis.py);
  * `llmTool`/`llmArgs` — `_extract_flexible_intent(self.llm.invoke(prompt))`,
    the black-box model response already parsed;
  * `confirmInput` — the operator's reply to the confirmation prompt.
The success response is the `"[Execution Success]"` banner; the appended
`str(result)` dump is presentation only and not modelled. The source's
early-return `if not tool:` check appears here as the equivalent
positively-phrased `if truthy tool?` with swapped branches, likewise
`if not self._check_safety(...)`. -/
def chat (server : String → Args → ToolResult) (analysisLlm : Bool)
    (llmTool : Option String) (llmArgs : Args) (confirmInput : String)
    (ctx : ContextMemory) (user_input : String) : ChatResult :=
  let rt := ruleBasedRouting user_input
  if rt.1 == some "analyze_cost_trend" || rt.1 == some "analyze_resource_usage"
      || rt.1 == some "analyze_high_cpu" then
    { response := "[Analysis Report]", ctx := ctx, llmInvoked := analysisLlm,
      routedTool := rt.1, confirmationRequested := false, dispatched := none }
  else
    let llmUsed := !truthy rt.1
    let tool? := routeTool user_input llmTool
    if truthy tool? then
      let tool := tool?.getD ""
      let args := finalizeArgs user_input tool (routeArgs user_input llmTool llmArgs)
        ctx.instance_id
      let safety := checkSafety tool confirmInput
      if safety.allowed then
        let result := server tool args
        { response := "[Execution Success]", ctx := updateInternalState ctx result,
          llmInvoked := llmUsed, routedTool := some tool,
          confirmationRequested := safety.requested, dispatched := some (tool, args) }
      else
        { response := "[System] Operation aborted.", ctx := ctx, llmInvoked := llmUsed,
          routedTool := some tool, confirmationRequested := safety.requested,
          dispatched := none }
    else
      { response := "[System] Error: I couldn't identify the appropriate action.",
        ctx := ctx, llmInvoked := llmUsed, routedTool := none,
        confirmationRequested := false, dispatched := none }

/-! ## External cloud model (src/MCPserver/MCPserver.py)

The provider is a `World`: the instances `describe_instances` would return,
in API order. Capabilities report the provider calls they make as `Ec2Call`
values, so absence of a side effect is absence of a call. -/

/-- One EC2 instance row. -/
structure Ec2Instance where
  instanceId : String
  nameTag : Option String
  state : String
  instanceType : String
deriving Repr, DecidableEq

/-- The instances the provider currently reports. -/
abbrev World := List Ec2Instance

/-- A mutating provider call. -/
inductive Ec2Call where
  | startCall (ids : List String)
  | stopCall (ids : List String)
  | rebootCall (ids : List String)
  | terminateCall (ids : List String)
  | modifyInstanceType (iid newType : String)
deriving Repr, DecidableEq

/-- The instance-state filter used by `_validate_instance_id`,
`_search_exact` and `_search_partial`. -/
def searchStates : List String := ["running", "stopped", "pending", "stopping"]

/-- The instance-state filter used by `_get_available_instances`. -/
def availStates : List String := ["running", "stopped"]

/-- The `ValueError`s raised along `MCPServer._resolve_id`. -/
inductive ResolveErr where
  | emptyInput
  | invalidId (iid : String)
  | noExactMatch (nm : String)
  | exactAmbiguous (nm : String) (ids : List String)
  | notFound (nm : String) (available : List String)
  | fuzzyAmbiguous (nm : String) (cands : List (String × String))
deriving Repr, DecidableEq

/-- The exact-name candidates of `MCPServer._search_exact`: searchable-state
instances whose `Name` tag equals the query. -/
def exactMatches (world : World) (nm : String) : List Ec2Instance :=
  world.filter (fun i => i.nameTag == some nm && searchStates.contains i.state)

/-- `MCPServer._search_exact` (MCPserver.py lines 576–611). -/
def searchExact (world : World) (nm : String) : Except ResolveErr String :=
  match exactMatches world nm with
  | [] => .error (.noExactMatch nm)
  | [i] => .ok i.instanceId
  | i1 :: i2 :: rest => .error (.exactAmbiguous nm ((i1 :: i2 :: rest).map (·.instanceId)))

/-- The normalization of `_search_partial`: lowercase, drop `-`, `_`, ` `. -/
def normalizeName (s : String) : String :=
  String.mk ((pyLower s).data.filter (fun c => !(c == '-' || c == '_' || c == ' ')))

/-- Whether an instance is a bidirectional-containment candidate of
`MCPServer._search_partial` for query `nm`. -/
def fuzzyPred (nm : String) (i : Ec2Instance) : Bool :=
  searchStates.contains i.state &&
  match i.nameTag with
  | none => false
  | some tag =>
    !(tag == "") &&
    (containsL (normalizeName nm).data (normalizeName tag).data ||
     containsL (normalizeName tag).data (normalizeName nm).data)

/-- The candidates collected by `MCPServer._search_partial`. -/
def fuzzyMatches (world : World) (nm : String) : List Ec2Instance :=
  world.filter (fuzzyPred nm)

/-- The raw (unsorted) name list of `MCPServer._get_available_instances`:
`Name` tags of running/stopped instances, skipping falsy tags. -/
def availableNamesRaw (world : World) : List String :=
  (world.filter (fun i => availStates.contains i.state)).filterMap
    (fun i => match i.nameTag with
      | some t => if t == "" then none else some t
      | none => none)

/-- `MCPServer._get_available_instances` (lines 688–713):
`sorted(names) if names else ["(없음)"]`. -/
def getAvailableInstances (world : World) : List String :=
  let names := availableNamesRaw world
  if names.isEmpty then ["(없음)"] else pySorted names

/-- `MCPServer._search_partial` (lines 613–686). -/
def searchFuzzy (world : World) (nm : String) : Except ResolveErr String :=
  match fuzzyMatches world nm with
  | [] => .error (.notFound nm (getAvailableInstances world))
  | [i] => .ok i.instanceId
  | i1 :: i2 :: rest =>
    .error (.fuzzyAmbiguous nm
      ((i1 :: i2 :: rest).map (fun i => (i.instanceId, i.nameTag.getD ""))))

/-- The provider's native-ID shape test of `_resolve_id`:
`identifier.startswith("i-") and len(identifier) == 19`. -/
def isNativeIdShape (s : String) : Bool := pyStartsWith s "i-" && s.length == 19

/-- `MCPServer._validate_instance_id` (lines 554–574): the ID must name an
instance in a searchable state. -/
def validateInstanceId (world : World) (iid : String) : Except ResolveErr String :=
  if world.any (fun i => i.instanceId == iid && searchStates.contains i.state) then .ok iid
  else .error (.invalidId iid)

/-- `MCPServer._resolve_id` (lines 540–552). Note the source catches the
`ValueError` raised by `_search_exact` — including its ambiguity error —
and falls through to `_search_partial`. -/
def resolveId (world : World) (identifier : String) : Except ResolveErr String :=
  let cleaned := pyStrip identifier
  if cleaned == "" then .error .emptyInput
  else if isNativeIdShape cleaned then validateInstanceId world cleaned
  else
    match searchExact world cleaned with
    | .ok iid => .ok iid
    | .error _ => searchFuzzy world cleaned

/-- Apply `modify_instance_attribute(InstanceId=tid, InstanceType=newType)`
to the world. -/
def setType (world : World) (iid newType : String) : World :=
  world.map (fun i => if i.instanceId == iid then { i with instanceType := newType } else i)

/-- `MCPServer.resize_instance` (lines 438–453): resolve, check the current
lifecycle state, and only then modify the instance type. The result carries
the new world, the returned message and the mutating provider calls made.
A resolution failure propagates out of the method (the source's
`_resolve_id` call sits outside its `try`). -/
def resizeInstance (world : World) (identifier newType : String) :
    Except ResolveErr (World × String × List Ec2Call) :=
  match resolveId world identifier with
  | .error e => .error e
  | .ok tid =>
    match world.find? (fun i => i.instanceId == tid) with
    | none => .ok (world, "Error resizing instance: instance not found", [])
    | some inst =>
      if inst.state ≠ "stopped" then
        .ok (world, "Error : Instance must be stopped to resize. Current state: " ++ inst.state, [])
      else
        .ok (setType world tid newType,
             "Successfully resized " ++ identifier ++ " (" ++ tid ++ ") to " ++ newType,
             [.modifyInstanceType tid newType])

/-- `MCPServer._clean_str` (lines 527–538) on a present string value:
strip, and error when the result is empty. -/
def cleanStrE (s : String) : Except String String :=
  let c := pyStrip s
  if c == "" then .error "Input value is empty" else .ok c

/-- `_clean_str` lifted to an optional field of the args dict. -/
def cleanOptE : Option String → Except String (Option String)
  | none => .ok none
  | some s => (cleanStrE s).map some

/-- `MCPServer._normalize_args` (lines 217–269), restricted to the fields of
`Args`: clean every string value, then resolve `instance_id` (keeping the
original on failure), then resolve `name` into `instance_id` (dropping
`name` on success, keeping it on failure). -/
def normalizeArgs (world : World) (args : Args) : Except String Args := do
  let iid ← cleanOptE args.instance_id
  let ityp ← cleanOptE args.instance_type
  let nm ← cleanOptE args.name
  let st ← cleanOptE args.status
  let iid := match iid with
    | some v =>
      match resolveId world v with
      | .ok r => some r
      | .error _ => some v
    | none => none
  let (iid, nm) := match nm with
    | some v =>
      match resolveId world v with
      | .ok r => (some r, none)
      | .error _ => (iid, some v)
    | none => (iid, none)
  .ok { instance_id := iid, instance_type := ityp, name := nm, status := st }

/-- `MCPServer.stop_instances` (lines 728–739) together with the provider
model: `ec2.stop_instances` succeeds when the instance exists, and the
method catches provider errors into an error dict. -/
def stopInstancesTool (world : World) (iid : Option String) : ToolResult × List Ec2Call :=
  match iid with
  | none => (.dict "error" none none none none (some "Invalid instance id: None"), [])
  | some v =>
    if world.any (fun i => i.instanceId == v) then
      (.dict "success" (some "stop_instances") none none (some v) none, [.stopCall [v]])
    else (.dict "error" none none none none (some "InvalidInstanceID.NotFound"), [])

/-- `MCPServer.start_instances` (lines 715–726), same provider model. -/
def startInstancesTool (world : World) (iid : Option String) : ToolResult × List Ec2Call :=
  match iid with
  | none => (.dict "error" none none none none (some "Invalid instance id: None"), [])
  | some v =>
    if world.any (fun i => i.instanceId == v) then
      (.dict "success" (some "start_instances") none none (some v) none, [.startCall [v]])
    else (.dict "error" none none none none (some "InvalidInstanceID.NotFound"), [])

/-- `MCPServer.reboot_instances` (lines 741–752), same provider model. -/
def rebootInstancesTool (world : World) (iid : Option String) : ToolResult × List Ec2Call :=
  match iid with
  | none => (.dict "error" none none none none (some "Invalid instance id: None"), [])
  | some v =>
    if world.any (fun i => i.instanceId == v) then
      (.dict "success" (some "reboot_instances") none none (some v) none, [.rebootCall [v]])
    else (.dict "error" none none none none (some "InvalidInstanceID.NotFound"), [])

/-- `MCPServer.call_tool` (lines 142–215), restricted to the instance
state-change tools the claims exercise: normalize the args (a `_clean_str`
failure is caught into an error dict), then dispatch. Unknown tools yield
the caught-`ValueError` error dict. -/
def callTool (world : World) (tool : String) (args : Args) : ToolResult × List Ec2Call :=
  match normalizeArgs world args with
  | .error msg => (.dict "error" none none none none (some msg), [])
  | .ok nargs =>
    if tool == "stop_instances" then stopInstancesTool world nargs.instance_id
    else if tool == "start_instances" then startInstancesTool world nargs.instance_id
    else if tool == "reboot_instances" then rebootInstancesTool world nargs.instance_id
    else (.dict "error" none none none none (some ("알 수 없는 도구: " ++ tool)), [])

/-- `MCPServer.execute_aws_action` (lines 487–525) with `auto_resolve_names`
unset (the Remediation Loop never sets it): only start/stop/reboot are
recognized, anything else is reported back without a provider call. -/
def executeAwsAction (action_name : String) (instanceIds : List String) :
    String × List Ec2Call :=
  if instanceIds.isEmpty then ("Error: No valid instance IDs provided", [])
  else if action_name == "start_instances" then
    ("Started instances: " ++ toString instanceIds, [.startCall instanceIds])
  else if action_name == "stop_instances" then
    ("Stopped instances: " ++ toString instanceIds, [.stopCall instanceIds])
  else if action_name == "reboot_instances" then
    ("Rebooted instances: " ++ toString instanceIds, [.rebootCall instanceIds])
  else ("Unknown action: " ++ action_name, [])

/-! ## `MonitorAgent` (src/agent/monitor.py) -/

/-- The negation words of `MonitorAgent._extract_action_from_text`. -/
def negationWords : List String := ["NOT", "SHOULD NOT", "DONT", "CANNOT", "DO NOT"]

/-- The positive keyword table of `_extract_action_from_text`, in source
(dict-insertion) order. -/
def actionKeywords : List (String × List String) :=
  [("START_INSTANCE", ["START", "BEGIN", "BOOT", "LAUNCH"]),
   ("REBOOT_INSTANCE", ["REBOOT", "RESTART", "RESTARTING"]),
   ("ADVISE_SCALE_UP", ["SCALE", "UPGRADE", "INCREASE", "RESIZE"]),
   ("MANUAL_CHECK", ["CHECK", "INVESTIGATE", "REVIEW", "MANUAL"])]

/-- `MonitorAgent._extract_action_from_text` (monitor.py lines 236–257):
uppercase, suppress when a negation word co-occurs with `START`, otherwise
first keyword-table hit wins. -/
def extractActionFromText (raw_response : String) : Option String :=
  let text := pyUpper raw_response
  if negationWords.any (fun w => pyIn w text) && pyIn "START" text then none
  else (actionKeywords.find? (fun p => p.2.any (fun kw => pyIn kw text))).map (·.1)

/-- `MonitorAgent._execute_action` (monitor.py lines 259–297): the decided
action mapped to its `execute_aws_action` call (`START_INSTANCE`,
`REBOOT_INSTANCE`), advisory text with no call (`ADVISE_SCALE_UP`,
`MANUAL_CHECK`), or the unknown-action report. Returns the message shown to
the operator and the provider calls made. -/
def monitorExecuteAction (action instance_id : String) : String × List Ec2Call :=
  if action == "START_INSTANCE" then
    ("인스턴스 시작됨", (executeAwsAction "start_instances" [instance_id]).2)
  else if action == "REBOOT_INSTANCE" then
    ("인스턴스 재부팅됨", (executeAwsAction "reboot_instances" [instance_id]).2)
  else if action == "ADVISE_SCALE_UP" then ("스케일업 권고 (자동 조치 없음)", [])
  else if action == "MANUAL_CHECK" then ("수동 점검 필요 (자동 조치 위험)", [])
  else ("알 수 없는 액션: " ++ action, [])

/-! ## `ChatOpsClient._extract_flexible_intent` (aiOps.py lines 66–89)

The model response is scanned with `re.search(r"(\{.*\})", text, re.DOTALL)`
— greedy, so the candidate runs from the first opening brace to the last
closing brace — then parsed with `json.loads`, falling back to
`ast.literal_eval`. We embed the parsers on the value grammar the intent
pipeline uses (strings and string-keyed objects, without escape sequences);
`ast.literal_eval` differs only in also accepting single-quoted strings. -/

/-- A parsed Python/JSON value of the intent grammar. -/
inductive PyVal where
  | pyNone : PyVal
  | pyStr : String → PyVal
  | pyDict : List (String × PyVal) → PyVal

/-- Python `dict.get(key)` (first binding wins; parsed dicts have unique
keys). -/
def dictGet (d : List (String × PyVal)) (key : String) : Option PyVal :=
  (d.find? (fun p => p.1 == key)).map (·.2)

/-- The body of `_extract_flexible_intent` once a dict is parsed:
`return data.get("tool"), data.get("args", {})` (lines 77 and 83). -/
def extractIntentFromDict (d : List (String × PyVal)) : Option PyVal × PyVal :=
  (dictGet d "tool", (dictGet d "args").getD (.pyDict []))

/-- Index of the first `{` in the list, if any. -/
def firstOpenBrace : List Char → Option Nat
  | [] => none
  | c :: rest =>
    if c == '\x7b' then some 0
    else (firstOpenBrace rest).map (· + 1)

/-- Index (counting from the end) of the last `}`: position of the first `}`
in the reversed list. -/
def firstCloseBraceRev : List Char → Option Nat
  | [] => none
  | c :: rest =>
    if c == '\x7d' then some 0
    else (firstCloseBraceRev rest).map (· + 1)

/-- Index of the last `}` in the list, if any. -/
def lastCloseBrace (l : List Char) : Option Nat :=
  match firstCloseBraceRev l.reverse with
  | some k => some (l.length - 1 - k)
  | none => none

/-- `re.search(r"(\{.*\})", text, re.DOTALL)`: the substring from the first
`{` to the last `}`, when the former precedes the latter. -/
def braceCandidate (text : String) : Option String :=
  match firstOpenBrace text.data, lastCloseBrace text.data with
  | some i, some j =>
    if i < j then some (String.mk ((text.data.drop i).take (j - i + 1))) else none
  | _, _ => none

/-- JSON/Python whitespace skipped between tokens. -/
def skipWs (l : List Char) : List Char := l.dropWhile Char.isWhitespace

/-- Parse a quoted string beginning after its opening quote `q`; no escape
sequences (the intent grammar never produces them). -/
def parseQuoted (q : Char) : List Char → Option (String × List Char)
  | [] => none
  | c :: rest =>
    if c == q then some ("", rest)
    else if c == '\\' then none
    else (parseQuoted q rest).map (fun r => (String.mk (c :: r.1.data), r.2))

/-- Parse a string token: `"…"`, or `'…'` when `single` is set
(the `ast.literal_eval` fallback). -/
def parseStrTok (single : Bool) (l : List Char) : Option (String × List Char) :=
  match l with
  | '\"' :: rest => parseQuoted '\"' rest
  | '\'' :: rest => if single then parseQuoted '\'' rest else none
  | _ => none

mutual

/-- Fuel-indexed recursive-descent parser for a value of the intent grammar
(string or object). Fuel `l.length + 1` always suffices. -/
def parseVal (single : Bool) : Nat → List Char → Option (PyVal × List Char)
  | 0, _ => none
  | fuel + 1, l =>
    let l := skipWs l
    match parseStrTok single l with
    | some (s, rest) => some (.pyStr s, rest)
    | none =>
      match l with
      | '\x7b' :: rest =>
        let rest := skipWs rest
        match rest with
        | '\x7d' :: rest2 => some (.pyDict [], rest2)
        | _ => parsePairs single fuel rest []
      | _ => none

/-- Parse the `key: value (, key: value)* }` tail of an object;
`acc` holds the pairs already read, reversed. -/
def parsePairs (single : Bool) : Nat → List Char → List (String × PyVal) →
    Option (PyVal × List Char)
  | 0, _, _ => none
  | fuel + 1, l, acc =>
    match parseStrTok single (skipWs l) with
    | none => none
    | some (key, rest) =>
      match skipWs rest with
      | ':' :: rest2 =>
        match parseVal single fuel rest2 with
        | none => none
        | some (v, rest3) =>
          match skipWs rest3 with
          | ',' :: rest4 => parsePairs single fuel rest4 ((key, v) :: acc)
          | '\x7d' :: rest4 => some (.pyDict (((key, v) :: acc).reverse), rest4)
          | _ => none
      | _ => none
end

/-- `json.loads(candidate)` restricted to objects of the intent grammar:
the whole candidate must parse as one object with nothing but whitespace
after it. -/
def jsonLoadsDict (s : String) : Option (List (String × PyVal)) :=
  match parseVal false (s.data.length + 1) s.data with
  | some (.pyDict d, rest) => if (skipWs rest).isEmpty then some d else none
  | _ => none

/-- `ast.literal_eval(candidate)` restricted likewise (single quotes
allowed), with the source's `isinstance(data, dict)` check. -/
def literalEvalDict (s : String) : Option (List (String × PyVal)) :=
  match parseVal true (s.data.length + 1) s.data with
  | some (.pyDict d, rest) => if (skipWs rest).isEmpty then some d else none
  | _ => none

/-- `ChatOpsClient._extract_flexible_intent` (lines 66–89): brace-candidate
search, strict parse, loose-literal fallback; every failure path returns
`(None, {})`. -/
def extractFlexibleIntent (text : String) : Option PyVal × PyVal :=
  match braceCandidate text with
  | none => (none, .pyDict [])
  | some cand =>
    match jsonLoadsDict cand with
    | some d => extractIntentFromDict d
    | none =>
      match literalEvalDict cand with
      | some d => extractIntentFromDict d
      | none => (none, .pyDict [])

/-! ## Helper lemmas -/

theorem isPrefL_iff (n : List Char) : ∀ h : List Char, isPrefL n h = true ↔ ∃ t, h = n ++ t := by
  induction n with
  | nil =>
    intro h
    simp [isPrefL]
  | cons a as ih =>
    intro h
    cases h with
    | nil =>
      simp [isPrefL]
    | cons b bs =>
      simp only [isPrefL, Bool.and_eq_true, beq_iff_eq, ih bs, List.cons_append,
        List.cons.injEq]
      constructor
      · rintro ⟨rfl, t, rfl⟩
        exact ⟨t, rfl, rfl⟩
      · rintro ⟨t, rfl, rfl⟩
        exact ⟨rfl, t, rfl⟩

theorem containsL_iff (n : List Char) :
    ∀ h : List Char, containsL n h = true ↔ ∃ s t, h = s ++ n ++ t := by
  intro h
  induction h with
  | nil =>
    simp only [containsL, isPrefL_iff]
    constructor
    · rintro ⟨t, ht⟩
      exact ⟨[], t, by simpa using ht⟩
    · rintro ⟨s, t, ht⟩
      obtain ⟨h1, h2⟩ := List.append_eq_nil.mp ht.symm
      obtain ⟨hs, hn⟩ := List.append_eq_nil.mp h1
      exact ⟨t, by simp [hn, h2]⟩
  | cons c cs ih =>
    simp only [containsL, Bool.or_eq_true, isPrefL_iff, ih]
    constructor
    · rintro (⟨t, ht⟩ | ⟨s, t, ht⟩)
      · exact ⟨[], t, by simpa using ht⟩
      · exact ⟨c :: s, t, by simp [ht]⟩
    · rintro ⟨s, t, ht⟩
      cases s with
      | nil =>
        exact Or.inl ⟨t, by simpa using ht⟩
      | cons s0 srest =>
        have := List.cons.inj ht
        exact Or.inr ⟨srest, t, this.2⟩

theorem containsL_refl (l : List Char) : containsL l l = true :=
  (containsL_iff l l).mpr ⟨[], [], by simp⟩

theorem containsL_map (f : Char → Char) {n h : List Char} (hc : containsL n h = true) :
    containsL (n.map f) (h.map f) = true := by
  obtain ⟨s, t, rfl⟩ := (containsL_iff n h).mp hc
  exact (containsL_iff _ _).mpr ⟨s.map f, t.map f, by simp⟩

theorem containsL_trans {a b c : List Char} (h1 : containsL a b = true)
    (h2 : containsL b c = true) : containsL a c = true := by
  obtain ⟨s1, t1, rfl⟩ := (containsL_iff a b).mp h1
  obtain ⟨s2, t2, rfl⟩ := (containsL_iff _ c).mp h2
  exact (containsL_iff a _).mpr ⟨s2 ++ s1, t1 ++ t2, by simp⟩

theorem lexLe_total : ∀ a b : List Char, lexLe a b = true ∨ lexLe b a = true
  | [], _ => Or.inl rfl
  | _ :: _, [] => Or.inr rfl
  | a :: as, b :: bs => by
    by_cases h : a = b
    · subst h
      simpa [lexLe] using lexLe_total as bs
    · rcases lt_or_gt_of_ne h with hlt | hgt
      · exact Or.inl (by simp [lexLe, h, hlt])
      · exact Or.inr (by simp [lexLe, Ne.symm h, hgt])

theorem lexLe_trans : ∀ a b c : List Char,
    lexLe a b = true → lexLe b c = true → lexLe a c = true
  | [], _, _, _, _ => rfl
  | _ :: _, [], _, h1, _ => by simp [lexLe] at h1
  | _ :: _, _ :: _, [], _, h2 => by simp [lexLe] at h2
  | a :: as, b :: bs, c :: cs, h1, h2 => by
    by_cases hab : a = b <;> by_cases hbc : b = c
    · subst hab; subst hbc
      simp only [lexLe, if_pos rfl] at h1 h2 ⊢
      exact lexLe_trans as bs cs h1 h2
    · subst hab
      simp only [lexLe, if_pos rfl] at h1
      simp only [lexLe, if_neg hbc] at h2 ⊢
      exact h2
    · subst hbc
      simp only [lexLe, if_neg hab] at h1 ⊢
      exact h1
    · simp only [lexLe, if_neg hab] at h1
      simp only [lexLe, if_neg hbc] at h2
      have hac : a < c := lt_trans (of_decide_eq_true h1) (of_decide_eq_true h2)
      simp [lexLe, ne_of_lt hac, hac]

instance : IsTotal String pyLeRel :=
  ⟨fun a b => lexLe_total a.data b.data⟩

instance : IsTrans String pyLeRel :=
  ⟨fun a b c => lexLe_trans a.data b.data c.data⟩

theorem length_filter_mono {α : Type} (p q : α → Bool) (h : ∀ a, p a = true → q a = true) :
    ∀ l : List α, (l.filter p).length ≤ (l.filter q).length := by
  intro l
  induction l with
  | nil => simp
  | cons a l ih =>
    by_cases hp : p a = true
    · simp [List.filter_cons, hp, h a hp, Nat.succ_le_succ ih]
    · have hp' : p a = false := by simpa using hp
      cases hq : q a <;> simp [List.filter_cons, hp', hq] <;> omega

theorem checkSafety_requested (tool confirmInput : String) :
    (checkSafety tool confirmInput).requested = CRITICAL_TOOLS.contains tool := by
  unfold checkSafety
  split <;> simp_all

theorem checkSafety_allowed_of_critical {tool confirmInput : String}
    (hc : CRITICAL_TOOLS.contains tool = true)
    (ha : (checkSafety tool confirmInput).allowed = true) :
    pyLower (pyStrip confirmInput) = "yes" := by
  unfold checkSafety at ha
  rw [if_pos hc] at ha
  simpa using ha

theorem checkSafety_allowed_noncritical {tool : String} (confirmInput : String)
    (hc : CRITICAL_TOOLS.contains tool = false) :
    (checkSafety tool confirmInput).allowed = true := by
  have h' : tool ∉ CRITICAL_TOOLS := by simpa using hc
  simp [checkSafety, h']

/-! ## Claim theorems -/

/-- C2: every remediation decision executed by the autonomous loop invokes
at most the start or reboot capability; `ADVISE_SCALE_UP`, `MANUAL_CHECK`
and unrecognized decision strings make no cloud-mutating call, and no path
invokes a stop, terminate, or resize capability. -/
theorem C2_loop_action_bounded (action instance_id : String) :
    (∀ c ∈ (monitorExecuteAction action instance_id).2,
        c = Ec2Call.startCall [instance_id] ∨ c = Ec2Call.rebootCall [instance_id]) ∧
    ((action = "ADVISE_SCALE_UP" ∨ action = "MANUAL_CHECK") →
        (monitorExecuteAction action instance_id).2 = []) ∧
    (action ∉ ["START_INSTANCE", "REBOOT_INSTANCE", "ADVISE_SCALE_UP", "MANUAL_CHECK"] →
        (monitorExecuteAction action instance_id).2 = []) := by
  unfold monitorExecuteAction executeAwsAction
  by_cases h1 : action = "START_INSTANCE" <;>
    by_cases h2 : action = "REBOOT_INSTANCE" <;>
      by_cases h3 : action = "ADVISE_SCALE_UP" <;>
        by_cases h4 : action = "MANUAL_CHECK" <;>
          simp_all

/-- C2 witness: a `MANUAL_CHECK` decision makes no cloud-mutating call. -/
theorem C2_loop_action_bounded_witness :
    (monitorExecuteAction "MANUAL_CHECK" "i-0w1").2 = [] :=
  (C2_loop_action_bounded "MANUAL_CHECK" "i-0w1").2.1 (Or.inr rfl)

/-- C4: decision text containing the phrase `"do not start"` is never
extracted as the `START_INSTANCE` remediation action — the negation guard
fires because `DO NOT` and `START` both occur in the upper-cased text. -/
theorem C4_negation_guard (t : String) (h : pyIn "do not start" t = true) :
    extractActionFromText t ≠ some "START_INSTANCE" := by
  have hup : containsL ("do not start".data.map Char.toUpper) (t.data.map Char.toUpper) = true :=
    containsL_map Char.toUpper h
  have hnot : containsL "NOT".data (t.data.map Char.toUpper) = true :=
    containsL_trans (by decide) hup
  have hstart : containsL "START".data (t.data.map Char.toUpper) = true :=
    containsL_trans (by decide) hup
  have hguard :
      (negationWords.any (fun w => pyIn w (pyUpper t)) && pyIn "START" (pyUpper t)) = true := by
    simp only [negationWords, List.any_cons, List.any_nil, pyIn, pyUpper, Bool.and_eq_true,
      Bool.or_eq_true]
    exact ⟨Or.inl hnot, hstart⟩
  unfold extractActionFromText
  rw [if_pos hguard]
  exact fun hc => Option.noConfusion hc

/-- C4 witness: a concrete response containing "do not start" yielding no
Start action. -/
theorem C4_negation_guard_witness :
    pyIn "do not start" "We should do not start it until the disk is checked" = true ∧
    extractActionFromText "We should do not start it until the disk is checked" ≠
      some "START_INSTANCE" :=
  ⟨by decide, C4_negation_guard _ (by decide)⟩

/-- C8: a resize whose resolved target is not in lifecycle state "stopped"
is rejected with the validation message naming the current state, the world
is unchanged, and no `modify_instance_attribute` call is made. -/
theorem C8_resize_rejected (world : World) (identifier newType tid : String)
    (inst : Ec2Instance)
    (hres : resolveId world identifier = .ok tid)
    (hfind : world.find? (fun i => i.instanceId == tid) = some inst)
    (hstate : inst.state ≠ "stopped") :
    resizeInstance world identifier newType =
      .ok (world, "Error : Instance must be stopped to resize. Current state: " ++ inst.state,
           []) := by
  unfold resizeInstance
  rw [hres]
  dsimp only
  rw [hfind]
  dsimp only
  rw [if_pos hstate]

/-- C8 witness: resizing a running instance is rejected without any
provider call. -/
theorem C8_resize_rejected_witness :
    resizeInstance [⟨"i-0r100001", some "srv", "running", "t2.micro"⟩] "srv" "t3.large" =
      .ok ([⟨"i-0r100001", some "srv", "running", "t2.micro"⟩],
           "Error : Instance must be stopped to resize. Current state: running", []) :=
  C8_resize_rejected [⟨"i-0r100001", some "srv", "running", "t2.micro"⟩] "srv" "t3.large"
    "i-0r100001" ⟨"i-0r100001", some "srv", "running", "t2.micro"⟩ rfl rfl (by decide)

theorem finStep6_instance_id (tool : String) (a : Args) :
    (finStep6 tool a).instance_id = a.instance_id := by
  unfold finStep6
  dsimp only
  split_ifs <;> rfl

theorem finStep5_no_test_id (a : Args) (s : String)
    (h : (finStep5 a).instance_id = some s) : isTestId s = false := by
  unfold finStep5 at h
  by_cases hc : (truthy a.instance_id && isTestId (a.instance_id.getD "")) = true
  · rw [if_pos hc] at h
    simp at h
  · rw [if_neg hc] at h
    rw [h] at hc
    by_cases hs : s = ""
    · subst hs
      decide
    · have hs' : (s == "") = false := by simpa using hs
      simp only [truthy, hs', Bool.not_false, Option.getD_some, Bool.true_and] at hc
      simpa using hc

theorem finalizeArgs_no_test_id (user_input tool : String) (args : Args)
    (ctxIid : Option String) (s : String)
    (h : (finalizeArgs user_input tool args ctxIid).instance_id = some s) :
    isTestId s = false := by
  unfold finalizeArgs at h
  rw [finStep6_instance_id] at h
  exact finStep5_no_test_id _ s h

theorem chat_dispatched_form (server : String → Args → ToolResult) (aLlm : Bool)
    (llmTool : Option String) (llmArgs : Args) (confirmInput : String)
    (ctx : ContextMemory) (user_input : String) (tl : String) (a : Args)
    (h : (chat server aLlm llmTool llmArgs confirmInput ctx user_input).dispatched =
      some (tl, a)) :
    ∃ args0, a = finalizeArgs user_input tl args0 ctx.instance_id := by
  simp only [chat] at h
  repeat' split at h
  all_goals simp only [Option.some.injEq, Prod.mk.injEq, reduceCtorEq] at h
  all_goals exact ⟨_, h.1 ▸ h.2.symm⟩

/-- C10 (implicit): during operator-path argument finalization, any
`instance_id` beginning with `"i-12345"` or containing `"abcde"` is reset to
`None` in Step 5 (after context injection, before safety check and
dispatch), so for every tool the dispatched arguments never carry such an
identifier. -/
theorem C10_test_id_filtered :
    (∀ user_input tool args ctxIid s,
        (finalizeArgs user_input tool args ctxIid).instance_id = some s →
        isTestId s = false) ∧
    (∀ server aLlm llmTool llmArgs confirmInput ctx user_input tl a s,
        (chat server aLlm llmTool llmArgs confirmInput ctx user_input).dispatched =
          some (tl, a) →
        a.instance_id = some s → isTestId s = false) := by
  refine ⟨fun ui tool args ctxIid s h => finalizeArgs_no_test_id ui tool args ctxIid s h,
    fun server aLlm lt la ci ctx ui tl a s hd ha => ?_⟩
  obtain ⟨args0, rfl⟩ := chat_dispatched_form server aLlm lt la ci ctx ui tl a hd
  exact finalizeArgs_no_test_id ui tl args0 ctx.instance_id s ha

/-- C10 witness: a legitimate identifier survives finalization, and the
theorem applied there certifies it is not of the filtered test shape. -/
theorem C10_test_id_filtered_witness : isTestId "i-0good001" = false :=
  C10_test_id_filtered.1 "stop it" "stop_instances"
    { instance_id := some "i-0good001" } none "i-0good001" rfl

theorem chat_requested (server : String → Args → ToolResult) (aLlm : Bool)
    (llmTool : Option String) (llmArgs : Args) (confirmInput : String)
    (ctx : ContextMemory) (user_input : String) (t : String)
    (h : (chat server aLlm llmTool llmArgs confirmInput ctx user_input).routedTool = some t) :
    (chat server aLlm llmTool llmArgs confirmInput ctx user_input).confirmationRequested =
      CRITICAL_TOOLS.contains t := by
  simp only [chat] at h ⊢
  split at h
  case isTrue hA =>
    rw [if_pos hA]
    simp only [ChatResult.routedTool] at h
    rw [h] at hA
    simp only [Bool.or_eq_true, beq_iff_eq, Option.some.injEq] at hA
    rcases hA with (rfl | rfl) | rfl <;> rfl
  case isFalse hA =>
    rw [if_neg hA]
    split at h
    case isTrue hT =>
      rw [if_pos hT]
      split at h
      case isTrue hS =>
        rw [if_pos hS]
        simp only [ChatResult.routedTool, Option.some.injEq] at h
        dsimp only
        rw [h]
        exact checkSafety_requested _ _
      case isFalse hS =>
        rw [if_neg hS]
        simp only [ChatResult.routedTool, Option.some.injEq] at h
        dsimp only
        rw [h]
        exact checkSafety_requested _ _
    case isFalse hT =>
      rw [if_neg hT]
      simp at h

theorem chat_abort (server : String → Args → ToolResult) (aLlm : Bool)
    (llmTool : Option String) (llmArgs : Args) (confirmInput : String)
    (ctx : ContextMemory) (user_input : String) (t : String)
    (h : (chat server aLlm llmTool llmArgs confirmInput ctx user_input).routedTool = some t)
    (hc : CRITICAL_TOOLS.contains t = true)
    (hno : pyLower (pyStrip confirmInput) ≠ "yes") :
    (chat server aLlm llmTool llmArgs confirmInput ctx user_input).dispatched = none ∧
    (chat server aLlm llmTool llmArgs confirmInput ctx user_input).response =
      "[System] Operation aborted." := by
  simp only [chat] at h ⊢
  split at h
  case isTrue hA =>
    simp only [ChatResult.routedTool] at h
    rw [h] at hA
    simp only [Bool.or_eq_true, beq_iff_eq, Option.some.injEq] at hA
    rcases hA with (rfl | rfl) | rfl <;> exact absurd hc (by decide)
  case isFalse hA =>
    rw [if_neg hA]
    split at h
    case isTrue hT =>
      rw [if_pos hT]
      split at h
      case isTrue hS =>
        exfalso
        simp only [ChatResult.routedTool, Option.some.injEq] at h
        rw [h] at hS
        exact hno (checkSafety_allowed_of_critical hc hS)
      case isFalse hS =>
        rw [if_neg hS]
        exact ⟨rfl, rfl⟩
    case isFalse hT =>
      simp at h

/-- C1 counterexample: a request routed to `stop_instances` — a member of
the claim's stop/terminate/resize critical set — is dispatched with no
confirmation request at all, and even an explicit non-affirmative operator
reply ("no") does not abort it, because `CRITICAL_TOOLS` contains only
terminate and resize. -/
theorem C1_stop_not_critical_cex :
    (chat (fun _ _ => ToolResult.text "ok") false none {} "no" {} "stop i-0abc").routedTool =
        some "stop_instances" ∧
    (chat (fun _ _ => ToolResult.text "ok") false none {} "no" {}
        "stop i-0abc").confirmationRequested = false ∧
    (chat (fun _ _ => ToolResult.text "ok") false none {} "no" {} "stop i-0abc").dispatched =
        some ("stop_instances", { instance_id := some "i-0abc" }) :=
  ⟨rfl, rfl, rfl⟩

/-- C1 (amended): the Safety Gate's critical set is exactly
`terminate_resource` and `resize_instance` — stop is not critical. For a
request routed to a critical action the gate synchronously requests
confirmation, and any non-affirmative reply aborts the request with the
"aborted by operator" response and no dispatcher call; requests routed to
non-critical actions (stop included) never see a confirmation prompt. -/
theorem C1_safety_gate (server : String → Args → ToolResult) (aLlm : Bool)
    (llmTool : Option String) (llmArgs : Args) (confirmInput : String)
    (ctx : ContextMemory) (user_input : String) (t : String)
    (h : (chat server aLlm llmTool llmArgs confirmInput ctx user_input).routedTool = some t) :
    (CRITICAL_TOOLS.contains t = true →
      (chat server aLlm llmTool llmArgs confirmInput ctx user_input).confirmationRequested =
        true ∧
      (pyLower (pyStrip confirmInput) ≠ "yes" →
        (chat server aLlm llmTool llmArgs confirmInput ctx user_input).dispatched = none ∧
        (chat server aLlm llmTool llmArgs confirmInput ctx user_input).response =
          "[System] Operation aborted.")) ∧
    (CRITICAL_TOOLS.contains t = false →
      (chat server aLlm llmTool llmArgs confirmInput ctx user_input).confirmationRequested =
        false) := by
  constructor
  · intro hc
    refine ⟨?_, fun hno => chat_abort server aLlm llmTool llmArgs confirmInput ctx
      user_input t h hc hno⟩
    rw [chat_requested server aLlm llmTool llmArgs confirmInput ctx user_input t h, hc]
  · intro hc
    rw [chat_requested server aLlm llmTool llmArgs confirmInput ctx user_input t h, hc]

/-- C1 witness: a terminate request with a declining operator is aborted
after a confirmation request, with no dispatch. -/
theorem C1_safety_gate_witness :
    (chat (fun _ _ => ToolResult.text "ok") false none {} "no" {}
        "terminate i-0abc").confirmationRequested = true ∧
    (chat (fun _ _ => ToolResult.text "ok") false none {} "no" {}
        "terminate i-0abc").dispatched = none ∧
    (chat (fun _ _ => ToolResult.text "ok") false none {} "no" {}
        "terminate i-0abc").response = "[System] Operation aborted." := by
  have h := C1_safety_gate (fun _ _ => ToolResult.text "ok") false none {} "no" {}
    "terminate i-0abc" "terminate_resource" rfl
  have h1 := (h.1 (by decide)).1
  have h2 := (h.1 (by decide)).2 (by decide)
  exact ⟨h1, h2.1, h2.2⟩

theorem ruleBasedRouting_ne_empty (user_input : String) (t : String)
    (h : (ruleBasedRouting user_input).1 = some t) : t ≠ "" := by
  simp only [ruleBasedRouting] at h
  split at h
  case h_1 p heq =>
    simp only [Option.some.injEq] at h
    have hp := List.mem_of_find?_eq_some heq
    subst h
    fin_cases hp <;> decide
  case h_2 heq =>
    repeat' split at h
    all_goals simp only [Option.some.injEq, reduceCtorEq] at h
    all_goals (intro he; rw [he] at h; exact absurd h (by decide))

/-- C5 counterexample: the input `"metric"` contains the diagnostic keyword
`metric`, yet rule-based routing yields no tool and `chat` falls back to the
external model — the fast path does not cover the bare keyword. -/
theorem C5_fast_path_cex :
    pyIn "metric" "metric" = true ∧
    (ruleBasedRouting "metric").1 = none ∧
    (chat (fun _ _ => ToolResult.text "ok") false none {} "yes" {} "metric").llmInvoked =
      true :=
  ⟨rfl, rfl, rfl⟩

/-- C5 (amended): whenever rule-based routing itself produces a
(non-analysis) tool — e.g. for `cost` phrasings without comparison words,
`list instance`/`show instance`/`list all`, `topology` with `generate`, or a
state-change verb next to an `i-` token — `chat` resolves the request
without invoking the external model; but a diagnostic keyword alone
(`metric`, bare `topology`, bare `list`) does not guarantee the fast path. -/
theorem C5_fast_path_no_llm (server : String → Args → ToolResult) (aLlm : Bool)
    (llmTool : Option String) (llmArgs : Args) (confirmInput : String)
    (ctx : ContextMemory) (user_input : String) (t : String)
    (hroute : (ruleBasedRouting user_input).1 = some t)
    (hnotan : analysisTools.contains t = false) :
    (chat server aLlm llmTool llmArgs confirmInput ctx user_input).llmInvoked = false := by
  have hne : t ≠ "" := ruleBasedRouting_ne_empty user_input t hroute
  have hmem : t ∉ analysisTools := by simpa using hnotan
  simp only [analysisTools, List.mem_cons, List.not_mem_nil, or_false, not_or] at hmem
  obtain ⟨h1, h2, h3⟩ := hmem
  simp only [chat]
  rw [if_neg (by rw [hroute]; simp [h1, h2, h3])]
  split <;> (try split) <;> simp [hroute, truthy, hne]

/-- C5 witness: `"show cost please"` routes to `get_cost` on the fast path
and the model is not invoked. -/
theorem C5_fast_path_no_llm_witness :
    (chat (fun _ _ => ToolResult.text "ok") false none {} "yes" {}
        "show cost please").llmInvoked = false :=
  C5_fast_path_no_llm (fun _ _ => ToolResult.text "ok") false none {} "yes" {}
    "show cost please" "get_cost" rfl rfl

theorem exact_imp_fuzzy (nm : String) (hne : nm ≠ "") (i : Ec2Instance)
    (h : (i.nameTag == some nm && searchStates.contains i.state) = true) :
    fuzzyPred nm i = true := by
  simp only [Bool.and_eq_true, beq_iff_eq] at h
  obtain ⟨htag, hstate⟩ := h
  have hne' : (nm == "") = false := by simpa using hne
  have hstate' : i.state ∈ searchStates := by simpa using hstate
  simp [fuzzyPred, htag, hstate', hne', containsL_refl]

/-- C6 counterexample: two running instances share the exact display name
`web` and a third is named `webx`; `resolve` does fail, but with the
partial-match ambiguity error listing all three candidates — a strict
superset of the two colliding IDs — because `_resolve_id` catches
`_search_exact`'s ambiguity error and falls through to `_search_partial`. -/
theorem C6_collision_cex :
    (exactMatches
        [⟨"i-0dup00001", some "web", "running", "t2.micro"⟩,
         ⟨"i-0dup00002", some "web", "running", "t2.micro"⟩,
         ⟨"i-0extra003", some "webx", "running", "t2.micro"⟩] "web").map (·.instanceId) =
      ["i-0dup00001", "i-0dup00002"] ∧
    resolveId
        [⟨"i-0dup00001", some "web", "running", "t2.micro"⟩,
         ⟨"i-0dup00002", some "web", "running", "t2.micro"⟩,
         ⟨"i-0extra003", some "webx", "running", "t2.micro"⟩] "web" =
      .error (.fuzzyAmbiguous "web"
        [("i-0dup00001", "web"), ("i-0dup00002", "web"), ("i-0extra003", "webx")]) :=
  ⟨rfl, rfl⟩

/-- C6 (amended): for every exact-name collision (≥ 2 searchable-state
resources sharing the display name, the query not being native-ID-shaped),
`resolve` always fails — never an arbitrary pick — with the partial-match
ambiguity error listing every bidirectional-containment candidate as a
(id, name) pair; that listing includes all the colliding resources but may
be a strict superset of them. -/
theorem C6_exact_collision_always_fails (world : World) (nm : String)
    (hclean : pyStrip nm = nm) (hne : nm ≠ "") (hshape : isNativeIdShape nm = false)
    (hcol : 2 ≤ (exactMatches world nm).length) :
    resolveId world nm = .error (.fuzzyAmbiguous nm
      ((fuzzyMatches world nm).map (fun i => (i.instanceId, i.nameTag.getD "")))) ∧
    ∀ i ∈ exactMatches world nm,
      (i.instanceId, i.nameTag.getD "") ∈
        (fuzzyMatches world nm).map (fun i => (i.instanceId, i.nameTag.getD "")) := by
  have himp : ∀ i : Ec2Instance,
      (i.nameTag == some nm && searchStates.contains i.state) = true →
      fuzzyPred nm i = true := fun i hi => exact_imp_fuzzy nm hne i hi
  have hlen : 2 ≤ (fuzzyMatches world nm).length :=
    le_trans hcol (length_filter_mono _ _ himp world)
  obtain ⟨a, b, rest, hexact⟩ : ∃ a b rest, exactMatches world nm = a :: b :: rest := by
    match hm : exactMatches world nm with
    | [] => rw [hm] at hcol; simp at hcol
    | [x] => rw [hm] at hcol; simp at hcol
    | x :: y :: r => exact ⟨x, y, r, rfl⟩
  obtain ⟨c, d, rest2, hfz⟩ : ∃ c d rest2, fuzzyMatches world nm = c :: d :: rest2 := by
    match hm : fuzzyMatches world nm with
    | [] => rw [hm] at hlen; simp at hlen
    | [x] => rw [hm] at hlen; simp at hlen
    | x :: y :: r => exact ⟨x, y, r, rfl⟩
  constructor
  · simp only [resolveId]
    rw [hclean, if_neg (by simp [hne]), if_neg (by simp [hshape])]
    have hSE : searchExact world nm =
        .error (.exactAmbiguous nm ((a :: b :: rest).map (·.instanceId))) := by
      simp only [searchExact, hexact]
    rw [hSE]
    dsimp only
    simp only [searchFuzzy, hfz]
  · intro i hi
    have hi' := List.mem_filter.mp hi
    exact List.mem_map_of_mem _ (List.mem_filter.mpr ⟨hi'.1, himp i hi'.2⟩)

/-- C6 witness: two stopped/running instances both named `web` make
`resolve` fail with the ambiguity listing containing both collider pairs. -/
theorem C6_exact_collision_always_fails_witness :
    resolveId
        [⟨"i-0c600001", some "web", "running", "t2.micro"⟩,
         ⟨"i-0c600002", some "web", "stopped", "t2.micro"⟩] "web" =
      .error (.fuzzyAmbiguous "web" [("i-0c600001", "web"), ("i-0c600002", "web")]) := by
  exact (C6_exact_collision_always_fails
    [⟨"i-0c600001", some "web", "running", "t2.micro"⟩,
     ⟨"i-0c600002", some "web", "stopped", "t2.micro"⟩] "web"
    rfl (by decide) rfl (by decide)).1

/-- C7: when an identifier has no exact and no partial (bidirectional
containment) match, `resolve` fails with the not-found error whose message
enumerates the currently available display names (the `Name` tags of
running/stopped instances), sorted; the attached list is a sorted
permutation of those names. -/
theorem C7_no_match_not_found (world : World) (nm : String)
    (hclean : pyStrip nm = nm) (hne : nm ≠ "") (hshape : isNativeIdShape nm = false)
    (hex : exactMatches world nm = []) (hfz : fuzzyMatches world nm = []) :
    resolveId world nm = .error (.notFound nm (getAvailableInstances world)) ∧
    (availableNamesRaw world ≠ [] →
      (getAvailableInstances world).Perm (availableNamesRaw world) ∧
      List.Sorted pyLeRel (getAvailableInstances world)) := by
  constructor
  · simp only [resolveId]
    rw [hclean, if_neg (by simp [hne]), if_neg (by simp [hshape])]
    have hSE : searchExact world nm = .error (.noExactMatch nm) := by
      simp only [searchExact, hex]
    rw [hSE]
    dsimp only
    simp only [searchFuzzy, hfz]
  · intro hnonempty
    have hni : (availableNamesRaw world).isEmpty = false := by
      simpa [List.isEmpty_iff] using hnonempty
    have hg : getAvailableInstances world = pySorted (availableNamesRaw world) := by
      simp [getAvailableInstances, hni]
    rw [hg]
    exact ⟨List.perm_insertionSort _ _, List.sorted_insertionSort _ _⟩

/-- C7 witness: resolving `zzz` against instances named `beta` and `alpha`
fails with the sorted available-name list attached. -/
theorem C7_no_match_not_found_witness :
    resolveId
        [⟨"i-0q100001", some "beta", "running", "t2.micro"⟩,
         ⟨"i-0q200002", some "alpha", "stopped", "t2.micro"⟩] "zzz" =
      .error (.notFound "zzz" ["alpha", "beta"]) ∧
    List.Sorted pyLeRel (getAvailableInstances
      [⟨"i-0q100001", some "beta", "running", "t2.micro"⟩,
       ⟨"i-0q200002", some "alpha", "stopped", "t2.micro"⟩]) := by
  have h := C7_no_match_not_found
    [⟨"i-0q100001", some "beta", "running", "t2.micro"⟩,
     ⟨"i-0q200002", some "alpha", "stopped", "t2.micro"⟩] "zzz"
    rfl (by decide) rfl rfl rfl
  refine ⟨?_, (h.2 (by decide)).2⟩
  rw [h.1]
  exact rfl

/-- C3 counterexample: in the spec's scenario — input `"Stop AIOpsmake"`,
empty Session Context, a unique running instance named `AIOpsmake`, the
model translating the request to `stop_instances` as its own prompt
instructs — the resolver does return the concrete ID, but no confirmation
is requested (stop is not in `CRITICAL_TOOLS`) and after the successful
stop dispatch the context's instance slot is still `none`, because the stop
result carries the affected ID under `instance_id` while
`_update_internal_state` reads only `resource_id`/`type`. -/
theorem C3_stop_scenario_cex :
    resolveId [⟨"i-0main00001", some "AIOpsmake", "running", "t2.micro"⟩] "AIOpsmake" =
      .ok "i-0main00001" ∧
    (chat (fun t a =>
        (callTool [⟨"i-0main00001", some "AIOpsmake", "running", "t2.micro"⟩] t a).1)
      false (some "stop_instances") { instance_id := some "AIOpsmake" } "yes" {}
      "Stop AIOpsmake").confirmationRequested = false ∧
    (chat (fun t a =>
        (callTool [⟨"i-0main00001", some "AIOpsmake", "running", "t2.micro"⟩] t a).1)
      false (some "stop_instances") { instance_id := some "AIOpsmake" } "yes" {}
      "Stop AIOpsmake").ctx.instance_id = none :=
  ⟨rfl, rfl, rfl⟩

/-- C3 (amended): in the scenario the resolver returns the instance's
concrete ID; stop is not a critical action, so no confirmation is requested
and the stop dispatches immediately; the provider stop call is made and the
tool reports success carrying the resolved ID under `instance_id`; the
Session Context's instance slot is NOT updated (it stays empty), since the
context updater looks for `resource_id` and `type` keys the stop result
does not have. -/
theorem C3_stop_scenario :
    resolveId [⟨"i-0main00001", some "AIOpsmake", "running", "t2.micro"⟩] "AIOpsmake" =
      .ok "i-0main00001" ∧
    callTool [⟨"i-0main00001", some "AIOpsmake", "running", "t2.micro"⟩]
        "stop_instances" { instance_id := some "AIOpsmake" } =
      (.dict "success" (some "stop_instances") none none (some "i-0main00001") none,
       [.stopCall ["i-0main00001"]]) ∧
    updateInternalState {}
        (.dict "success" (some "stop_instances") none none (some "i-0main00001") none) =
      {} ∧
    (chat (fun t a =>
        (callTool [⟨"i-0main00001", some "AIOpsmake", "running", "t2.micro"⟩] t a).1)
      false (some "stop_instances") { instance_id := some "AIOpsmake" } "yes" {}
      "Stop AIOpsmake") =
      { response := "[Execution Success]", ctx := {}, llmInvoked := true,
        routedTool := some "stop_instances", confirmationRequested := false,
        dispatched := some ("stop_instances", { instance_id := some "AIOpsmake" }) } :=
  ⟨rfl, rfl, rfl, rfl⟩

/-- C9 counterexample: a model response whose brace-delimited substring
parses successfully and names the tool under the `action` key is NOT read —
the extractor consults only the `tool` key, so the intent comes back empty
despite the successful parse. -/
theorem C9_action_key_cex :
    braceCandidate "\x7b\"action\": \"stop_instances\", \"args\": \x7b\x7d\x7d" =
      some "\x7b\"action\": \"stop_instances\", \"args\": \x7b\x7d\x7d" ∧
    jsonLoadsDict "\x7b\"action\": \"stop_instances\", \"args\": \x7b\x7d\x7d" =
      some [("action", .pyStr "stop_instances"), ("args", .pyDict [])] ∧
    extractFlexibleIntent "\x7b\"action\": \"stop_instances\", \"args\": \x7b\x7d\x7d" =
      (none, .pyDict []) :=
  ⟨rfl, rfl, rfl⟩

/-- C9 (amended): when the brace-delimited candidate of a model response
parses successfully, the extractor reads the tool name from the `tool` key
only (the historical `action` key is not accepted) and the argument map
from `args`, defaulting to the empty dict. -/
theorem C9_intent_tool_key_only (text cand : String) (d : List (String × PyVal))
    (hb : braceCandidate text = some cand)
    (hj : jsonLoadsDict cand = some d) :
    extractFlexibleIntent text = (dictGet d "tool", (dictGet d "args").getD (.pyDict [])) := by
  unfold extractFlexibleIntent
  rw [hb]
  dsimp only
  rw [hj]
  rfl

/-- C9 witness: a well-formed `tool`-keyed response extracts the tool and
args. -/
theorem C9_intent_tool_key_only_witness :
    extractFlexibleIntent
        "\x7b\"tool\": \"stop_instances\", \"args\": \x7b\"instance_id\": \"web\"\x7d\x7d" =
      (some (.pyStr "stop_instances"), .pyDict [("instance_id", .pyStr "web")]) := by
  have h := C9_intent_tool_key_only
    "\x7b\"tool\": \"stop_instances\", \"args\": \x7b\"instance_id\": \"web\"\x7d\x7d"
    "\x7b\"tool\": \"stop_instances\", \"args\": \x7b\"instance_id\": \"web\"\x7d\x7d"
    [("tool", .pyStr "stop_instances"), ("args", .pyDict [("instance_id", .pyStr "web")])]
    rfl rfl
  rw [h]
  rfl

end AIOps
